import Mathlib

/-
Verification of the graph-description-and-render pipeline described in
`spec.md` against the declarative script `src/task_1_architecture.py`.

The script is the only source file of the repository; the construction API
it calls (`Diagram`, `Cluster`, node constructors, the `>>` edge sugar) is
the external `diagrams` package, whose code is not part of the repository.
Following the specification, those operations are modelled here from the
spec's contracts (each such definition carries a doc comment starting
"Modelled from the spec:"), and the script itself is translated line by
line on top of them.
-/

namespace Arch

/-- Modelled from the spec: the fixed enumeration of layout directions
accepted by `open_graph` (§4.4): top-to-bottom, left-to-right,
bottom-to-top, right-to-left.  The script uses "TB". -/
inductive Direction where
  | TB | LR | BT | RL
deriving DecidableEq, Repr

/-- Modelled from the spec: the construction-error taxonomy of §7
(`ScopeError`, `UnknownEndpointError`). -/
inductive BuildError where
  | ScopeError
  | UnknownEndpointError
deriving DecidableEq, Repr

/-- Modelled from the spec: a handle returned by the Node Registry or a
Cluster Scope, usable later as an edge endpoint (§3).  Handles carry the
internally-unique identity assigned at creation. -/
inductive Handle where
  | node (id : Nat)
  | cluster (id : Nat)
deriving DecidableEq, Repr

/-- Modelled from the spec: a Node entity (§3): unique identity, display
label, a logical kind tag, and the scope that owns it (`none` = the root
Graph, `some c` = the cluster with identity `c`). -/
structure Node where
  id : Nat
  label : String
  kind : String
  owner : Option Nat
deriving DecidableEq, Repr

/-- Modelled from the spec: a Cluster entity (§3): identity, title, and
parent scope (`none` = the root Graph). -/
structure ClusterRec where
  id : Nat
  title : String
  parent : Option Nat
deriving DecidableEq, Repr

/-- Modelled from the spec: an Edge record (§3): ordered endpoint pair,
optional bidirectional flag, optional label. -/
structure Edge where
  src : Handle
  dst : Handle
  bidirectional : Bool
  label : Option String
deriving DecidableEq, Repr

/-- Modelled from the spec: the root Graph (§3): title, layout-direction
hint, a fresh-identity counter, the containment forest (nodes and clusters
with parent references), the stack of currently open cluster scopes
(head = innermost), and the flat overlaid edge list. -/
structure GraphState where
  title : String
  direction : Direction
  nextId : Nat
  nodes : List Node
  clusters : List ClusterRec
  stack : List Nat
  edges : List Edge
deriving DecidableEq, Repr

/-- The ambient construction state: `none` when no Graph scope is open,
`some g` while the Graph `g` is being assembled. -/
def BuildState : Type := Option GraphState

instance : DecidableEq BuildState :=
  inferInstanceAs (DecidableEq (Option GraphState))

/-- Construction computations: state passing over the ambient build state,
failing with a `BuildError` (spec §7: construction errors abort assembly). -/
def M (α : Type) : Type := BuildState → Except BuildError (α × BuildState)

instance : Monad M where
  pure a := fun s => Except.ok (a, s)
  bind m f := fun s =>
    match m s with
    | Except.error e => Except.error e
    | Except.ok (a, s') => f a s'

/-- Modelled from the spec: `open_graph(title, direction)` (§4.4) — opens
the root Graph scope; only one GraphScope may be open at a time. -/
def open_graph (title : String) (dir : Direction) : M Unit := fun s =>
  match s with
  | some _ => Except.error BuildError.ScopeError
  | none =>
      Except.ok ((), some { title := title, direction := dir, nextId := 0,
                            nodes := [], clusters := [], stack := [], edges := [] })

/-- Modelled from the spec: closing the root Graph scope (§4.4) — the
fully assembled Graph is handed over (returned) and the ambient scope
becomes empty again. -/
def close_graph : M GraphState := fun s =>
  match s with
  | none => Except.error BuildError.ScopeError
  | some g => Except.ok (g, none)

/-- Modelled from the spec: `open_cluster(title)` (§4.2) — requires an
open Graph; records a fresh cluster whose parent is the current active
scope, pushes it as the new active scope, and returns its handle. -/
def open_cluster (title : String) : M Handle := fun s =>
  match s with
  | none => Except.error BuildError.ScopeError
  | some g =>
      Except.ok (Handle.cluster g.nextId,
        some { g with nextId := g.nextId + 1,
                      clusters := g.clusters ++ [⟨g.nextId, title, g.stack.head?⟩],
                      stack := g.nextId :: g.stack })

/-- Modelled from the spec: closing a cluster scope (§4.2) — pops the
innermost open scope; the active scope reverts to its parent.  Closing is
only ever possible for the most recently opened scope (strict LIFO). -/
def close_cluster : M Unit := fun s =>
  match s with
  | none => Except.error BuildError.ScopeError
  | some g =>
      match g.stack with
      | [] => Except.error BuildError.ScopeError
      | _ :: rest => Except.ok ((), some { g with stack := rest })

/-- Modelled from the spec: `create_node(label, kind)` (§4.1) — callable
only while some scope is open; appends a fresh node to the active scope's
child list and returns its handle. -/
def create_node (label kind : String) : M Handle := fun s =>
  match s with
  | none => Except.error BuildError.ScopeError
  | some g =>
      Except.ok (Handle.node g.nextId,
        some { g with nextId := g.nextId + 1,
                      nodes := g.nodes ++ [⟨g.nextId, label, kind, g.stack.head?⟩] })

/-- Whether a handle was produced by this Graph's Node Registry or Cluster
Scope operations (spec §4.3 precondition). -/
def registered (g : GraphState) (h : Handle) : Bool :=
  match h with
  | Handle.node i => g.nodes.any (fun n => n.id == i)
  | Handle.cluster i => g.clusters.any (fun c => c.id == i)

/-- Modelled from the spec: `connect(source, destination, bidirectional,
label)` (§4.3) — both endpoints must be registered in the current Graph
(else `UnknownEndpointError`); on success appends one directed edge record
to the Graph's edge list and mutates nothing else. -/
def connect (src dst : Handle) (bidirectional : Bool) (label : Option String) :
    M Unit := fun s =>
  match s with
  | none => Except.error BuildError.ScopeError
  | some g =>
      if registered g src && registered g dst then
        Except.ok ((), some { g with edges := g.edges ++ [⟨src, dst, bidirectional, label⟩] })
      else
        Except.error BuildError.UnknownEndpointError

/-- The `>>` sugar of the script: `a >> b` issues `connect(a, b)` and
returns `b`, so `a >> b >> c` chains left to right (spec §4.3). -/
def rshift (src dst : Handle) : M Handle := do
  connect src dst false none
  pure dst

/-- The `with Cluster(title):` block of the script: open the cluster scope,
run the body, close the scope. -/
def withCluster (title : String) (body : M α) : M α := do
  let _ ← open_cluster title
  let a ← body
  close_cluster
  pure a

/-- The `with Diagram(title, direction):` block of the script: open the
root Graph scope, run the body, and on exit hand back the assembled
Graph. -/
def withDiagram (title : String) (dir : Direction) (body : M α) : M GraphState := do
  open_graph title dir
  let _ ← body
  close_graph

/-- The script `src/task_1_architecture.py`, translated statement by
statement: the eight `with Cluster` blocks creating the 22 nodes, then the
connection block (lines 63-109) with each `>>` of a chain issuing its own
connect, left to right. -/
def script (dir : Direction) : M GraphState :=
  withDiagram "Online Marketplace Architecture" dir (do
    let (web_clients, mobile_clients, internet) ← withCluster "Clients" (do
      let w ← create_node "Web Clients" "Browser"
      let m ← create_node "Mobile Clients" "Mobile"
      let i ← create_node "Internet" "Internet"
      pure (w, m, i))
    let (api_gateway, waf, shield, iam) ← withCluster "API Gateway & Security" (do
      let a ← create_node "API Gateway" "APIGateway"
      let w ← create_node "AWS WAF" "WAF"
      let s ← create_node "AWS Shield" "WAF"
      let i ← create_node "AWS IAM" "IAM"
      pure (a, w, s, i))
    let (cognito, lambda_authorizer) ← withCluster "Authentication & Authorization" (do
      let c ← create_node "AWS Cognito" "Cognito"
      let l ← create_node "Lambda Authorizer" "Lambda"
      pure (c, l))
    let (user_service, product_service, order_service, payment_service,
         notification_service) ← withCluster "Microservices" (do
      let u ← create_node "User Service" "Lambda"
      let p ← create_node "Product Service" "Lambda"
      let o ← create_node "Order Service" "Lambda"
      let pay ← create_node "Payment Service" "Lambda"
      let n ← create_node "Notification Service" "Lambda"
      pure (u, p, o, pay, n))
    let (rds, dynamodb, redis) ← withCluster "Databases" (do
      let r ← create_node "Amazon RDS (PostgreSQL)" "RDS"
      let d ← create_node "Amazon DynamoDB" "Database"
      let e ← create_node "Amazon ElastiCache (Redis)" "ElastiCache"
      pure (r, d, e))
    let sqs ← withCluster "Message Queue" (do
      create_node "Amazon SQS" "SQS")
    let (payment_providers, external_inventory) ← withCluster "Third-Party Integrations" (do
      let p ← create_node "Third-Party Payment Providers" "Users"
      let e ← create_node "External Inventory System" "Users"
      pure (p, e))
    let (cloudwatch, xray) ← withCluster "Monitoring & Logging" (do
      let c ← create_node "Amazon CloudWatch" "Cloudwatch"
      let x ← create_node "AWS X-Ray" "Prometheus"
      pure (c, x))
    -- Connections
    let _ ← rshift (← rshift web_clients internet) api_gateway
    let _ ← rshift (← rshift mobile_clients internet) api_gateway
    let _ ← rshift api_gateway cognito
    let _ ← rshift api_gateway lambda_authorizer
    let _ ← rshift lambda_authorizer api_gateway
    let _ ← rshift api_gateway user_service
    let _ ← rshift api_gateway product_service
    let _ ← rshift api_gateway order_service
    let _ ← rshift api_gateway payment_service
    let _ ← rshift api_gateway notification_service
    let _ ← rshift user_service rds
    let _ ← rshift order_service rds
    let _ ← rshift product_service dynamodb
    let _ ← rshift product_service redis
    let _ ← rshift order_service redis
    let _ ← rshift order_service sqs
    let _ ← rshift product_service sqs
    let _ ← rshift sqs notification_service
    let _ ← rshift sqs external_inventory
    let _ ← rshift payment_service payment_providers
    -- Monitoring & Logging
    let _ ← rshift user_service cloudwatch
    let _ ← rshift product_service cloudwatch
    let _ ← rshift order_service cloudwatch
    let _ ← rshift payment_service cloudwatch
    let _ ← rshift notification_service cloudwatch
    let _ ← rshift api_gateway cloudwatch
    let _ ← rshift lambda_authorizer cloudwatch
    let _ ← rshift user_service xray
    let _ ← rshift product_service xray
    let _ ← rshift order_service xray
    let _ ← rshift payment_service xray
    let _ ← rshift notification_service xray
    let _ ← rshift api_gateway xray
    let _ ← rshift lambda_authorizer xray
    -- Security
    let _ ← rshift api_gateway waf
    let _ ← rshift api_gateway shield
    let _ ← rshift api_gateway iam
    pure ())

/-- The Graph assembled by the script under a given layout direction. -/
def buildResult (dir : Direction) : Except BuildError GraphState :=
  match script dir none with
  | Except.error e => Except.error e
  | Except.ok (g, _) => Except.ok g

instance {e a : Type} [DecidableEq e] [DecidableEq a] : DecidableEq (Except e a) := fun x y =>
  match x, y with
  | Except.ok u, Except.ok v =>
      if h : u = v then isTrue (by rw [h]) else isFalse (fun hc => by cases hc; exact h rfl)
  | Except.ok _, Except.error _ => isFalse (fun hc => by cases hc)
  | Except.error _, Except.ok _ => isFalse (fun hc => by cases hc)
  | Except.error u, Except.error v =>
      if h : u = v then isTrue (by rw [h]) else isFalse (fun hc => by cases hc; exact h rfl)

/-! ## Graph-building programs

A general graph-building program, for the "for every program" claims: a
sequence of construction-API calls.  `chain` is the chained `>>` sugar
(`chain [a, b, c]` is `a >> b >> c`); each link counts as its own
`connect` call (spec §4.3, §8). -/

inductive Instr where
  | openCluster (title : String)
  | closeCluster
  | createNode (label kind : String)
  | connectI (src dst : Handle) (bidirectional : Bool) (label : Option String)
  | chain (endpoints : List Handle)
deriving DecidableEq, Repr

/-- Issue the `connect` calls of a chained expression, left to right. -/
def chainM : List Handle → M Unit
  | [] => pure ()
  | [_] => pure ()
  | a :: b :: rest => do
      connect a b false none
      chainM (b :: rest)

/-- Run one construction-API call. -/
def runInstr : Instr → M Unit
  | Instr.openCluster t => do
      let _ ← open_cluster t
      pure ()
  | Instr.closeCluster => close_cluster
  | Instr.createNode l k => do
      let _ ← create_node l k
      pure ()
  | Instr.connectI s d b lb => connect s d b lb
  | Instr.chain hs => chainM hs

/-- Run a graph-building program in order. -/
def runProg : List Instr → M Unit
  | [] => pure ()
  | i :: is => do
      runInstr i
      runProg is

/-- Number of `connect` calls an instruction issues: a chain of `n`
endpoints expands to `n - 1` connects. -/
def instrConnects : Instr → Nat
  | Instr.connectI _ _ _ _ => 1
  | Instr.chain hs => hs.length - 1
  | _ => 0

/-- Number of `connect` calls a program issues, chained-sugar expansions
counted separately. -/
def countConnects : List Instr → Nat
  | [] => 0
  | i :: is => instrConnects i + countConnects is

/-- Replace only the layout-direction hint of a Graph. -/
def setDir (d : Direction) (g : GraphState) : GraphState := { g with direction := d }

/-- `setDir` lifted to the ambient build state. -/
def setDirS (d : Direction) : BuildState → BuildState :=
  Option.map (setDir d)

/-- `setDir` lifted to the result of a construction computation. -/
def mapRes (d : Direction) :
    Except BuildError (α × BuildState) → Except BuildError (α × BuildState)
  | Except.error e => Except.error e
  | Except.ok (a, s) => Except.ok (a, setDirS d s)

/-- The Graph produced by `open_graph(title, d)` before anything is added. -/
def gInit (title : String) (d : Direction) : GraphState :=
  { title := title, direction := d, nextId := 0,
    nodes := [], clusters := [], stack := [], edges := [] }

/-- The Graph value of a finished top-level run. -/
def extractGraph : Except BuildError (GraphState × BuildState) →
    Except BuildError GraphState
  | Except.error e => Except.error e
  | Except.ok (g, _) => Except.ok g

/-- Run an arbitrary graph-building program under
`open_graph(title, d)` and hand back the assembled Graph. -/
def buildUnder (title : String) (d : Direction) (prog : List Instr) :
    Except BuildError GraphState :=
  extractGraph (withDiagram title d (runProg prog) none)

/-! ## Render Adapter

Modelled from the spec (§4.5, §7): the Render Adapter serializes the
graph, invokes the external layout engine out of process, and writes the
image atomically — render to a temporary path, move into place only on
success.  The engine itself is external; its possible outcomes are a
parameter. -/

/-- Modelled from the spec: the possible outcomes of invoking the external
layout engine (§4.5): binary missing, non-zero exit, or success with the
produced image bytes. -/
inductive BackendOutcome where
  | missingBinary
  | nonZeroExit (code : Nat)
  | success (image : String)
deriving DecidableEq, Repr

/-- Modelled from the spec: the render-failure error (§7). -/
inductive RenderError where
  | RenderBackendError (msg : String)
deriving DecidableEq, Repr

/-- A filesystem modelled as path-content pairs. -/
def FS : Type := List (String × String)

instance : DecidableEq FS := inferInstanceAs (DecidableEq (List (String × String)))

def fsGet (fs : FS) (p : String) : Option String :=
  (fs.find? (fun e => e.1 == p)).map (fun e => e.2)

def fsSet (fs : FS) (p v : String) : FS :=
  (p, v) :: fs.filter (fun e => e.1 != p)

def fsRemove (fs : FS) (p : String) : FS :=
  fs.filter (fun e => e.1 != p)

/-- Modelled from the spec: `render(graph)` (§4.5).  If the engine binary
is missing, nothing is ever written.  If the engine exits non-zero, the
partially written temporary file is removed and `RenderBackendError` is
raised.  On success the temporary file is moved into place at the target
path.  Returns the render result together with the final filesystem. -/
def render (_g : GraphState) (outcome : BackendOutcome) (fs : FS)
    (target tmp : String) : Except RenderError String × FS :=
  match outcome with
  | BackendOutcome.missingBinary =>
      (Except.error (RenderError.RenderBackendError "layout engine binary not found"), fs)
  | BackendOutcome.nonZeroExit code =>
      (Except.error (RenderError.RenderBackendError
        ("layout engine exited with code " ++ toString code)),
       fsRemove (fsSet fs tmp "halfwritten") tmp)
  | BackendOutcome.success image =>
      (Except.ok target, fsSet (fsRemove (fsSet fs tmp image) tmp) target image)

/-! ## Views of the assembled graph used by the claims -/

/-- The model content of a Graph: everything except the layout-direction
hint (and the title, which both runs share). -/
def stripDirection (g : GraphState) : List Node × List ClusterRec × List Edge :=
  (g.nodes, g.clusters, g.edges)

/-- The containment forest has depth exactly two: 8 clusters all rooted at
the Graph, 22 nodes each owned by one of those clusters, none at the
root. -/
def depthTwoForest (g : GraphState) : Bool :=
  g.clusters.length == 8 &&
  g.clusters.all (fun c => c.parent == none) &&
  g.nodes.length == 22 &&
  g.nodes.all (fun n =>
    match n.owner with
    | some p => g.clusters.any (fun c => c.id == p)
    | none => false)

/-- Every edge record joins two distinct leaf Nodes, forward-only, with no
label. -/
def edgesLeafOnly (g : GraphState) : Bool :=
  g.edges.length == 39 &&
  g.edges.all (fun e =>
    (match e.src with
     | Handle.node _ => true
     | Handle.cluster _ => false) &&
    (match e.dst with
     | Handle.node _ => true
     | Handle.cluster _ => false) &&
    e.src != e.dst &&
    e.bidirectional == false &&
    e.label == none)

/-- A parent reference points strictly earlier in creation order. -/
def parentOk (o : Option Nat) (n : Nat) : Bool :=
  match o with
  | none => true
  | some p => decide (p < n)

/-- The cluster-identity invariant: every cluster's identity is below the
fresh counter, every cluster's parent was created strictly earlier (so the
containment tree is acyclic: the parent chain strictly decreases), and
every open scope on the stack is below the fresh counter. -/
def clusterInv (g : GraphState) : Bool :=
  g.clusters.all (fun c => decide (c.id < g.nextId) && parentOk c.parent c.id) &&
  g.stack.all (fun i => decide (i < g.nextId))

/-! ## Concrete inputs used to instantiate the universally quantified
theorems below -/

/-- A freshly opened, still empty Graph. -/
def gEmpty : GraphState :=
  { title := "t", direction := Direction.TB, nextId := 0,
    nodes := [], clusters := [], stack := [], edges := [] }

/-- A small graph-building program: two nodes, one plain connect, one
three-endpoint chain (two more connects). -/
def progW : List Instr :=
  [Instr.createNode "svc" "compute", Instr.createNode "db" "store",
   Instr.connectI (Handle.node 0) (Handle.node 1) false none,
   Instr.chain [Handle.node 0, Handle.node 1, Handle.node 0]]

/-- The graph `progW` assembles from `gEmpty`. -/
def gW : GraphState :=
  { title := "t", direction := Direction.TB, nextId := 2,
    nodes := [⟨0, "svc", "compute", none⟩, ⟨1, "db", "store", none⟩],
    clusters := [], stack := [],
    edges := [⟨Handle.node 0, Handle.node 1, false, none⟩,
              ⟨Handle.node 0, Handle.node 1, false, none⟩,
              ⟨Handle.node 1, Handle.node 0, false, none⟩] }

/-- A small program exercising nested and sibling cluster scopes. -/
def progC5 : List Instr :=
  [Instr.openCluster "outer", Instr.openCluster "inner",
   Instr.closeCluster, Instr.closeCluster, Instr.openCluster "other"]

/-- The graph `progC5` assembles from `gEmpty`. -/
def gC5 : GraphState :=
  { title := "t", direction := Direction.TB, nextId := 3,
    nodes := [],
    clusters := [⟨0, "outer", none⟩, ⟨1, "inner", some 0⟩, ⟨2, "other", none⟩],
    stack := [2], edges := [] }

/-- A Graph with two nested open cluster scopes (`1` opened inside `0`). -/
def gStacked : GraphState :=
  { title := "t", direction := Direction.TB, nextId := 2,
    nodes := [],
    clusters := [⟨0, "outer", none⟩, ⟨1, "inner", some 0⟩],
    stack := [1, 0], edges := [] }

/-- The chained-sugar expression `a >> b >> c` of the script, as a single
construction computation. -/
def chainedExpr (a b c : Handle) : M Handle := do
  let x ← rshift a b
  rshift x c

/-- The equivalent explicit sequence `connect(a,b); connect(b,c)`. -/
def twoCalls (a b c : Handle) : M Unit := do
  connect a b false none
  connect b c false none

/-! ## Basic facts about the construction operations -/

theorem M.bind_apply (m : M α) (f : α → M β) (s : BuildState) :
    (m >>= f) s =
      match m s with
      | Except.error e => Except.error e
      | Except.ok (a, s') => f a s' := rfl

theorem M.pure_apply (a : α) (s : BuildState) :
    (pure a : M α) s = Except.ok (a, s) := rfl

theorem registered_edges (g : GraphState) (es : List Edge) (h : Handle) :
    registered { g with edges := es } h = registered g h := rfl

theorem M.bind_ok (m : M α) (f : α → M β) (s s'' : BuildState) (b : β)
    (h : (m >>= f) s = Except.ok (b, s'')) :
    ∃ a s', m s = Except.ok (a, s') ∧ f a s' = Except.ok (b, s'') := by
  cases hm : m s with
  | error e => rw [M.bind_apply, hm] at h; cases h
  | ok as =>
      obtain ⟨a, s'⟩ := as
      rw [M.bind_apply, hm] at h
      exact ⟨a, s', rfl, h⟩

theorem open_cluster_apply (t : String) (g : GraphState) :
    open_cluster t (some g) =
      Except.ok (Handle.cluster g.nextId,
        some { g with nextId := g.nextId + 1,
                      clusters := g.clusters ++ [⟨g.nextId, t, g.stack.head?⟩],
                      stack := g.nextId :: g.stack }) := rfl

theorem create_node_apply (l k : String) (g : GraphState) :
    create_node l k (some g) =
      Except.ok (Handle.node g.nextId,
        some { g with nextId := g.nextId + 1,
                      nodes := g.nodes ++ [⟨g.nextId, l, k, g.stack.head?⟩] }) := rfl

theorem close_cluster_nil (g : GraphState) (h : g.stack = []) :
    close_cluster (some g) = Except.error BuildError.ScopeError := by
  simp [close_cluster, h]

theorem close_cluster_cons (g : GraphState) (c : Nat) (rest : List Nat)
    (h : g.stack = c :: rest) :
    close_cluster (some g) = Except.ok ((), some { g with stack := rest }) := by
  simp [close_cluster, h]

theorem connect_ok (g : GraphState) (src dst : Handle) (b : Bool) (l : Option String)
    (h : (registered g src && registered g dst) = true) :
    connect src dst b l (some g) =
      Except.ok ((), some { g with edges := g.edges ++ [⟨src, dst, b, l⟩] }) := by
  simp [connect, h]

theorem connect_err (g : GraphState) (src dst : Handle) (b : Bool) (l : Option String)
    (h : (registered g src && registered g dst) = false) :
    connect src dst b l (some g) = Except.error BuildError.UnknownEndpointError := by
  simp [connect, h]

theorem parentOk_iff (o : Option Nat) (n : Nat) :
    parentOk o n = true ↔ ∀ p, o = some p → p < n := by
  cases o <;> simp [parentOk]

theorem clusterInv_iff (g : GraphState) :
    clusterInv g = true ↔
      ((∀ c ∈ g.clusters, c.id < g.nextId ∧ ∀ p, c.parent = some p → p < c.id) ∧
       (∀ i ∈ g.stack, i < g.nextId)) := by
  simp [clusterInv, Bool.and_eq_true, List.all_eq_true, decide_eq_true_eq, parentOk_iff]

theorem clusterInv_openCluster (g : GraphState) (t : String) (h : clusterInv g = true) :
    clusterInv { g with nextId := g.nextId + 1,
                        clusters := g.clusters ++ [⟨g.nextId, t, g.stack.head?⟩],
                        stack := g.nextId :: g.stack } = true := by
  rw [clusterInv_iff] at h ⊢
  obtain ⟨hc, hs⟩ := h
  dsimp only
  constructor
  · intro c hcmem
    rcases List.mem_append.mp hcmem with hm | hm
    · obtain ⟨h1, h2⟩ := hc c hm
      exact ⟨by omega, h2⟩
    · rcases List.mem_singleton.mp hm with rfl
      refine ⟨Nat.lt_succ_self _, ?_⟩
      intro p hp
      exact hs p (List.mem_of_mem_head? hp)
  · intro i him
    rcases List.mem_cons.mp him with rfl | him
    · omega
    · exact Nat.lt_succ_of_lt (hs i him)

theorem clusterInv_createNode (g : GraphState) (l k : String) (h : clusterInv g = true) :
    clusterInv { g with nextId := g.nextId + 1,
                        nodes := g.nodes ++ [⟨g.nextId, l, k, g.stack.head?⟩] } = true := by
  rw [clusterInv_iff] at h ⊢
  obtain ⟨hc, hs⟩ := h
  dsimp only
  exact ⟨fun c hm => ⟨Nat.lt_succ_of_lt (hc c hm).1, (hc c hm).2⟩,
         fun i him => Nat.lt_succ_of_lt (hs i him)⟩

theorem clusterInv_closeCluster (g : GraphState) (c : Nat) (rest : List Nat)
    (hst : g.stack = c :: rest) (h : clusterInv g = true) :
    clusterInv { g with stack := rest } = true := by
  rw [clusterInv_iff] at h ⊢
  obtain ⟨hcl, hs⟩ := h
  dsimp only
  exact ⟨hcl, fun i him => hs i (by rw [hst]; exact List.mem_cons_of_mem c him)⟩

theorem clusterInv_edges (g : GraphState) (es : List Edge) (h : clusterInv g = true) :
    clusterInv { g with edges := es } = true := by
  rw [clusterInv_iff] at h ⊢
  exact h

/-- Running a chained expression from an open Graph appends one edge per
link and touches nothing else. -/
theorem chainM_some (hs : List Handle) :
    ∀ (g : GraphState) (u : Unit) (s' : BuildState),
      chainM hs (some g) = Except.ok (u, s') →
      ∃ g1 : GraphState, s' = some g1 ∧
        g1.edges.length = g.edges.length + (hs.length - 1) ∧
        g1.nodes = g.nodes ∧ g1.clusters = g.clusters ∧
        g1.stack = g.stack ∧ g1.nextId = g.nextId := by
  induction hs with
  | nil =>
      intro g u s' h
      simp only [chainM, M.pure_apply, Except.ok.injEq, Prod.mk.injEq, true_and] at h
      exact ⟨g, h.symm, by simp, rfl, rfl, rfl, rfl⟩
  | cons a tail ih =>
      intro g u s' h
      cases tail with
      | nil =>
          simp only [chainM, M.pure_apply, Except.ok.injEq, Prod.mk.injEq, true_and] at h
          exact ⟨g, h.symm, by simp, rfl, rfl, rfl, rfl⟩
      | cons b rest =>
          obtain ⟨v, s1, hc, hrest⟩ :=
            M.bind_ok (connect a b false none) (fun _ => chainM (b :: rest)) (some g) s' u h
          by_cases hreg : (registered g a && registered g b) = true
          · rw [connect_ok g a b false none hreg] at hc
            cases hc
            obtain ⟨g1, h1, hlen, hn, hcl, hst, hid⟩ := ih _ u s' hrest
            refine ⟨g1, h1, ?_, hn, hcl, hst, hid⟩
            rw [hlen]
            dsimp only
            simp only [List.length_append, List.length_cons, List.length_nil]
            omega
          · have hreg' : (registered g a && registered g b) = false := by
              revert hreg; cases (registered g a && registered g b) <;> simp
            rw [connect_err g a b false none hreg'] at hc
            cases hc

/-- Any successful construction-API call made while a Graph is open leaves
a Graph that is still open, has gained exactly the call's connect count in
edge records, and still satisfies the cluster-identity invariant. -/
theorem runInstr_some (i : Instr) (g : GraphState) (u : Unit) (s' : BuildState)
    (h : runInstr i (some g) = Except.ok (u, s')) :
    ∃ g1 : GraphState, s' = some g1 ∧
      g1.edges.length = g.edges.length + instrConnects i ∧
      (clusterInv g = true → clusterInv g1 = true) := by
  cases i with
  | openCluster t =>
      obtain ⟨hnd, s1, ho, hp⟩ :=
        M.bind_ok (open_cluster t) (fun _ => pure ()) (some g) s' u h
      rw [open_cluster_apply] at ho
      cases ho
      rw [M.pure_apply] at hp
      cases hp
      exact ⟨_, rfl, by simp [instrConnects], clusterInv_openCluster g t⟩
  | closeCluster =>
      cases hst : g.stack with
      | nil =>
          rw [show runInstr Instr.closeCluster = close_cluster from rfl,
              close_cluster_nil g hst] at h
          cases h
      | cons c rest =>
          rw [show runInstr Instr.closeCluster = close_cluster from rfl,
              close_cluster_cons g c rest hst] at h
          cases h
          exact ⟨_, rfl, by simp [instrConnects], clusterInv_closeCluster g c rest hst⟩
  | createNode l k =>
      obtain ⟨hnd, s1, ho, hp⟩ :=
        M.bind_ok (create_node l k) (fun _ => pure ()) (some g) s' u h
      rw [create_node_apply] at ho
      cases ho
      rw [M.pure_apply] at hp
      cases hp
      exact ⟨_, rfl, by simp [instrConnects], clusterInv_createNode g l k⟩
  | connectI src dst b lb =>
      by_cases hreg : (registered g src && registered g dst) = true
      · rw [show runInstr (Instr.connectI src dst b lb) = connect src dst b lb from rfl,
            connect_ok g src dst b lb hreg] at h
        cases h
        exact ⟨_, rfl, by simp [instrConnects], clusterInv_edges g _⟩
      · have hreg' : (registered g src && registered g dst) = false := by
          revert hreg; cases (registered g src && registered g dst) <;> simp
        rw [show runInstr (Instr.connectI src dst b lb) = connect src dst b lb from rfl,
            connect_err g src dst b lb hreg'] at h
        cases h
  | chain hs =>
      obtain ⟨g1, h1, hlen, hn, hcl, hst, hid⟩ := chainM_some hs g u s' h
      refine ⟨g1, h1, by simpa [instrConnects] using hlen, ?_⟩
      intro hinv
      rw [clusterInv_iff] at hinv ⊢
      rw [hcl, hst, hid]
      exact hinv

/-- Running any graph-building program from an open Graph leaves a Graph
that has gained exactly the program's connect count in edge records and
still satisfies the cluster-identity invariant. -/
theorem runProg_some (prog : List Instr) :
    ∀ (g : GraphState) (u : Unit) (s' : BuildState),
      runProg prog (some g) = Except.ok (u, s') →
      ∃ g1 : GraphState, s' = some g1 ∧
        g1.edges.length = g.edges.length + countConnects prog ∧
        (clusterInv g = true → clusterInv g1 = true) := by
  induction prog with
  | nil =>
      intro g u s' h
      simp only [runProg, M.pure_apply, Except.ok.injEq, Prod.mk.injEq, true_and] at h
      exact ⟨g, h.symm, by simp [countConnects], fun hv => hv⟩
  | cons i is ih =>
      intro g u s' h
      obtain ⟨v, s1, hi, hrest⟩ :=
        M.bind_ok (runInstr i) (fun _ => runProg is) (some g) s' u h
      obtain ⟨g1, rfl, hlen1, hinv1⟩ := runInstr_some i g v s1 hi
      obtain ⟨g2, h2, hlen2, hinv2⟩ := ih g1 u s' hrest
      refine ⟨g2, h2, ?_, fun hv => hinv2 (hinv1 hv)⟩
      simp only [countConnects]
      omega

/-! ## Filesystem lemmas for the Render Adapter -/

theorem find_filter_ne (fs : FS) (p q : String) (h : q ≠ p) :
    (fs.filter (fun e => e.1 != p)).find? (fun e => e.1 == q) =
      fs.find? (fun e => e.1 == q) := by
  induction fs with
  | nil => rfl
  | cons e t ih =>
      by_cases he : e.1 = p
      · have hq : (p == q) = false := beq_false_of_ne (Ne.symm h)
        simp only [List.filter_cons, he, bne_self_eq_false, Bool.false_eq_true,
          if_false, List.find?_cons, hq]
        exact ih
      · have hne : (e.1 != p) = true := bne_iff_ne.mpr he
        simp only [List.filter_cons, hne, List.find?_cons, if_true]
        cases hq : (e.1 == q) with
        | true => rfl
        | false => exact ih

theorem fsGet_fsSet_ne (fs : FS) (p v q : String) (h : q ≠ p) :
    fsGet (fsSet fs p v) q = fsGet fs q := by
  have hq : (p == q) = false := beq_false_of_ne (Ne.symm h)
  simp only [fsGet, fsSet, List.find?_cons, hq]
  rw [find_filter_ne fs p q h]

theorem fsGet_fsRemove_ne (fs : FS) (p q : String) (h : q ≠ p) :
    fsGet (fsRemove fs p) q = fsGet fs q := by
  simp only [fsGet, fsRemove]
  rw [find_filter_ne fs p q h]

theorem fsGet_fsRemove_self (fs : FS) (p : String) :
    fsGet (fsRemove fs p) p = none := by
  simp only [fsGet, fsRemove]
  induction fs with
  | nil => rfl
  | cons e t ih =>
      by_cases he : e.1 = p
      · simp only [List.filter_cons, he, bne_self_eq_false, Bool.false_eq_true, if_false]
        exact ih
      · have hne : (e.1 != p) = true := bne_iff_ne.mpr he
        have hq : (e.1 == p) = false := beq_false_of_ne he
        simp only [List.filter_cons, hne, List.find?_cons, hq, if_true]
        exact ih

/-! ## The chained sugar is exactly the sequence of connects -/

theorem chained_seq_eq (a b c : Handle) (s : BuildState) :
    (chainedExpr a b c >>= fun _ => (pure () : M Unit)) s = twoCalls a b c s := by
  simp only [chainedExpr, rshift, twoCalls, M.bind_apply, M.pure_apply]
  cases h1 : connect a b false none s with
  | error e => rfl
  | ok p =>
      obtain ⟨v, s1⟩ := p
      dsimp only
      cases h2 : connect b c false none s1 with
      | error e => rfl
      | ok q =>
          obtain ⟨w, s2⟩ := q
          rfl

/-! ## The direction hint is inert: every construction step commutes with
changing it -/

theorem setDirS_some (d : Direction) (g : GraphState) :
    setDirS d (some g) = some (setDir d g) := rfl

theorem open_cluster_setDir (t : String) (d : Direction) (s : BuildState) :
    open_cluster t (setDirS d s) = mapRes d (open_cluster t s) := by
  cases s with
  | none => rfl
  | some g => rfl

theorem create_node_setDir (l k : String) (d : Direction) (s : BuildState) :
    create_node l k (setDirS d s) = mapRes d (create_node l k s) := by
  cases s with
  | none => rfl
  | some g => rfl

theorem close_cluster_setDir (d : Direction) (s : BuildState) :
    close_cluster (setDirS d s) = mapRes d (close_cluster s) := by
  cases s with
  | none => rfl
  | some g =>
      rw [setDirS_some]
      cases hst : g.stack with
      | nil =>
          rw [close_cluster_nil g hst, close_cluster_nil (setDir d g) hst]
          rfl
      | cons c rest =>
          rw [close_cluster_cons g c rest hst, close_cluster_cons (setDir d g) c rest hst]
          rfl

theorem connect_setDir (src dst : Handle) (b : Bool) (l : Option String)
    (d : Direction) (s : BuildState) :
    connect src dst b l (setDirS d s) = mapRes d (connect src dst b l s) := by
  cases s with
  | none => rfl
  | some g =>
      rw [setDirS_some]
      by_cases h : (registered g src && registered g dst) = true
      · rw [connect_ok g src dst b l h, connect_ok (setDir d g) src dst b l h]
        rfl
      · have h' : (registered g src && registered g dst) = false := by
          revert h; cases (registered g src && registered g dst) <;> simp
        rw [connect_err g src dst b l h', connect_err (setDir d g) src dst b l h']
        rfl

theorem chainM_setDir (hs : List Handle) (d : Direction) :
    ∀ s : BuildState, chainM hs (setDirS d s) = mapRes d (chainM hs s) := by
  induction hs with
  | nil => intro s; cases s <;> rfl
  | cons a tail ih =>
      intro s
      cases tail with
      | nil => cases s <;> rfl
      | cons b rest =>
          rw [show chainM (a :: b :: rest) =
                (connect a b false none >>= fun _ => chainM (b :: rest)) from rfl,
              M.bind_apply, M.bind_apply, connect_setDir a b false none d s]
          cases h : connect a b false none s with
          | error e => rfl
          | ok p =>
              obtain ⟨v, s1⟩ := p
              exact ih s1

theorem runInstr_setDir (i : Instr) (d : Direction) (s : BuildState) :
    runInstr i (setDirS d s) = mapRes d (runInstr i s) := by
  cases i with
  | openCluster t =>
      rw [show runInstr (Instr.openCluster t) =
            (open_cluster t >>= fun _ => (pure () : M Unit)) from rfl,
          M.bind_apply, M.bind_apply, open_cluster_setDir t d s]
      cases h : open_cluster t s with
      | error e => rfl
      | ok p => obtain ⟨v, s1⟩ := p; rfl
  | closeCluster => exact close_cluster_setDir d s
  | createNode l k =>
      rw [show runInstr (Instr.createNode l k) =
            (create_node l k >>= fun _ => (pure () : M Unit)) from rfl,
          M.bind_apply, M.bind_apply, create_node_setDir l k d s]
      cases h : create_node l k s with
      | error e => rfl
      | ok p => obtain ⟨v, s1⟩ := p; rfl
  | connectI src dst b lb => exact connect_setDir src dst b lb d s
  | chain hs => exact chainM_setDir hs d s

theorem runProg_setDir (prog : List Instr) (d : Direction) :
    ∀ s : BuildState, runProg prog (setDirS d s) = mapRes d (runProg prog s) := by
  induction prog with
  | nil => intro s; cases s <;> rfl
  | cons i is ih =>
      intro s
      rw [show runProg (i :: is) = (runInstr i >>= fun _ => runProg is) from rfl,
          M.bind_apply, M.bind_apply, runInstr_setDir i d s]
      cases h : runInstr i s with
      | error e => rfl
      | ok p =>
          obtain ⟨v, s1⟩ := p
          exact ih s1

theorem buildUnder_strip (title : String) (prog : List Instr) (d : Direction) :
    (buildUnder title d prog).map stripDirection =
      (buildUnder title Direction.TB prog).map stripDirection := by
  show (extractGraph ((runProg prog >>= fun _ => close_graph)
          (setDirS d (some (gInit title Direction.TB))))).map stripDirection =
       (extractGraph ((runProg prog >>= fun _ => close_graph)
          (some (gInit title Direction.TB)))).map stripDirection
  rw [M.bind_apply, M.bind_apply, runProg_setDir prog d]
  cases h : runProg prog (some (gInit title Direction.TB)) with
  | error e => rfl
  | ok p =>
      obtain ⟨v, s1⟩ := p
      cases s1 with
      | none => rfl
      | some g1 => rfl

/-! ## The claims -/

/-- Claim C1: for every graph-building program, the number of Edge records
in the assembled Graph equals the number of connect calls issued, each
chained-sugar expansion counted as a separate connect; in particular the
connection block of this script yields exactly 39 edge records. -/
theorem edge_count_eq_connect_calls :
    (∀ (prog : List Instr) (g g' : GraphState),
        runProg prog (some g) = Except.ok ((), some g') →
        g'.edges.length = g.edges.length + countConnects prog) ∧
    (buildResult Direction.TB).map (fun g => g.edges.length) = Except.ok 39 := by
  constructor
  · intro prog g g' h
    obtain ⟨g1, hg1, hlen, _⟩ := runProg_some prog g () (some g') h
    cases hg1
    exact hlen
  · decide

theorem edge_count_eq_connect_calls_witness :
    runProg progW (some gEmpty) = Except.ok ((), some gW) ∧
    gW.edges.length = gEmpty.edges.length + countConnects progW :=
  ⟨by decide, edge_count_eq_connect_calls.1 progW gEmpty gW (by decide)⟩

/-- Claim C2: for all endpoints a, b, c, the chained connect form
`a >> b >> c` appends exactly the two edge records (a,b) and (b,c), in
that order and nothing else, and is semantically equal (at every build
state) to issuing `connect(a,b); connect(b,c)` left to right. -/
theorem chained_connect_equiv_two_calls :
    ∀ (a b c : Handle) (g : GraphState),
      registered g a = true → registered g b = true → registered g c = true →
      chainedExpr a b c (some g) =
        Except.ok (c, some { g with edges :=
          g.edges ++ [⟨a, b, false, none⟩, ⟨b, c, false, none⟩] }) ∧
      (∀ s : BuildState,
        (chainedExpr a b c >>= fun _ => (pure () : M Unit)) s = twoCalls a b c s) := by
  intro a b c g ha hb hc
  refine ⟨?_, chained_seq_eq a b c⟩
  have h1 := connect_ok g a b false none (by simp [ha, hb])
  have h2 := connect_ok { g with edges := g.edges ++ [⟨a, b, false, none⟩] } b c false none
    (by simp only [registered_edges]; simp [hb, hc])
  simp only [chainedExpr, rshift, M.bind_apply, M.pure_apply, h1, h2]
  simp [List.append_assoc]

theorem chained_connect_equiv_two_calls_witness :
    registered gW (Handle.node 0) = true ∧ registered gW (Handle.node 1) = true ∧
    chainedExpr (Handle.node 0) (Handle.node 1) (Handle.node 0) (some gW) =
      Except.ok (Handle.node 0, some { gW with edges :=
        gW.edges ++ [⟨Handle.node 0, Handle.node 1, false, none⟩,
                     ⟨Handle.node 1, Handle.node 0, false, none⟩] }) :=
  ⟨by decide, by decide,
   (chained_connect_equiv_two_calls (Handle.node 0) (Handle.node 1) (Handle.node 0) gW
      (by decide) (by decide) (by decide)).1⟩

/-- Claim C3: for every handle not registered in the current Graph and
every registered endpoint, connect fails with UnknownEndpointError in
either argument position, appending no edge record (the error carries no
successor state, so assembly aborts with the Graph unchanged). -/
theorem connect_unknown_endpoint_fails :
    ∀ (g : GraphState) (h x : Handle) (b : Bool) (l : Option String),
      registered g h = false → registered g x = true →
      connect h x b l (some g) = Except.error BuildError.UnknownEndpointError ∧
      connect x h b l (some g) = Except.error BuildError.UnknownEndpointError := by
  intro g h x b l hh hx
  exact ⟨connect_err g h x b l (by simp [hh, hx]),
         connect_err g x h b l (by simp [hh, hx])⟩

theorem connect_unknown_endpoint_fails_witness :
    registered gW (Handle.node 99) = false ∧ registered gW (Handle.node 0) = true ∧
    connect (Handle.node 99) (Handle.node 0) false none (some gW) =
      Except.error BuildError.UnknownEndpointError ∧
    connect (Handle.node 0) (Handle.node 99) false none (some gW) =
      Except.error BuildError.UnknownEndpointError :=
  ⟨by decide, by decide,
   connect_unknown_endpoint_fails gW (Handle.node 99) (Handle.node 0) false none
     (by decide) (by decide)⟩

/-- Claim C4: scope nesting is strict LIFO — a close with no open cluster
scope fails with ScopeError, and a successful close always closes exactly
the most recently opened still-open scope (the head of the scope stack),
so closing a scope while a scope opened inside it remains open is
structurally impossible. -/
theorem close_scope_strict_lifo :
    ∀ g : GraphState,
      (g.stack = [] → close_cluster (some g) = Except.error BuildError.ScopeError) ∧
      (∀ c rest, g.stack = c :: rest →
        close_cluster (some g) = Except.ok ((), some { g with stack := rest })) ∧
      (∀ s', close_cluster (some g) = Except.ok ((), s') →
        s' = some { g with stack := g.stack.tail }) := by
  intro g
  refine ⟨close_cluster_nil g, close_cluster_cons g, ?_⟩
  intro s' h
  cases hst : g.stack with
  | nil => rw [close_cluster_nil g hst] at h; cases h
  | cons c rest =>
      rw [close_cluster_cons g c rest hst] at h
      cases h
      rfl

theorem close_scope_strict_lifo_witness :
    gStacked.stack = 1 :: [0] ∧
    close_cluster (some gStacked) = Except.ok ((), some { gStacked with stack := [0] }) :=
  ⟨rfl, (close_scope_strict_lifo gStacked).2.1 1 [0] rfl⟩

/-- Claim C5: in every reachable assembled Graph the containment tree is
acyclic (every cluster's parent was created strictly earlier, so parent
chains strictly decrease and can never loop), while the overlaid edge set
is an unrestricted directed multigraph: connect succeeds for any pair of
registered endpoints regardless of the existing edges, and in this
script's graph the cycle api_gateway >> lambda_authorizer >> api_gateway
and the repeated edge internet >> api_gateway are all retained among the
39 records. -/
theorem containment_acyclic_edges_unrestricted :
    (∀ (prog : List Instr) (g g' : GraphState),
        clusterInv g = true →
        runProg prog (some g) = Except.ok ((), some g') →
        clusterInv g' = true ∧
        ∀ c ∈ g'.clusters, ∀ p, c.parent = some p → p < c.id) ∧
    (∀ (g : GraphState) (s d : Handle) (b : Bool) (l : Option String),
        registered g s = true → registered g d = true →
        connect s d b l (some g) =
          Except.ok ((), some { g with edges := g.edges ++ [⟨s, d, b, l⟩] })) ∧
    (buildResult Direction.TB).map (fun g =>
        (g.edges.count ⟨Handle.node 5, Handle.node 11, false, none⟩,
         g.edges.count ⟨Handle.node 11, Handle.node 5, false, none⟩,
         g.edges.count ⟨Handle.node 3, Handle.node 5, false, none⟩,
         g.edges.length)) = Except.ok (1, 1, 2, 39) := by
  refine ⟨?_, ?_, by decide⟩
  · intro prog g g' hinv h
    obtain ⟨g1, hg1, _, hpres⟩ := runProg_some prog g () (some g') h
    cases hg1
    have hv := hpres hinv
    refine ⟨hv, ?_⟩
    intro c hc p hp
    exact (((clusterInv_iff _).mp hv).1 c hc).2 p hp
  · intro g s d b l hs hd
    exact connect_ok g s d b l (by simp [hs, hd])

theorem containment_acyclic_edges_unrestricted_witness :
    clusterInv gEmpty = true ∧
    runProg progC5 (some gEmpty) = Except.ok ((), some gC5) ∧
    clusterInv gC5 = true :=
  ⟨by decide, by decide,
   (containment_acyclic_edges_unrestricted.1 progC5 gEmpty gC5 (by decide) (by decide)).1⟩

/-- Claim C6: if the external layout engine is missing or exits non-zero,
render fails with RenderBackendError and the filesystem is unchanged at
the target path, with no partially written file left at the temporary
path either (the write is atomic: render to a temporary path, move into
place only on success). -/
theorem render_failure_leaves_fs_unchanged :
    ∀ (g : GraphState) (outcome : BackendOutcome) (fs : FS) (target tmp : String),
      (∀ img, outcome ≠ BackendOutcome.success img) →
      target ≠ tmp → fsGet fs tmp = none →
      (∃ msg, (render g outcome fs target tmp).1 =
          Except.error (RenderError.RenderBackendError msg)) ∧
      fsGet (render g outcome fs target tmp).2 target = fsGet fs target ∧
      fsGet (render g outcome fs target tmp).2 tmp = none := by
  intro g outcome fs target tmp hfail hne htmp
  cases outcome with
  | missingBinary =>
      exact ⟨⟨_, rfl⟩, rfl, htmp⟩
  | nonZeroExit code =>
      refine ⟨⟨_, rfl⟩, ?_, ?_⟩
      · show fsGet (fsRemove (fsSet fs tmp "halfwritten") tmp) target = fsGet fs target
        rw [fsGet_fsRemove_ne _ _ _ hne, fsGet_fsSet_ne _ _ _ _ hne]
      · exact fsGet_fsRemove_self _ _
  | success img => exact absurd rfl (hfail img)

theorem render_failure_leaves_fs_unchanged_witness :
    fsGet ((render gEmpty BackendOutcome.missingBinary
        [("diagram.png", "old")] "diagram.png" "diagram.png.tmp").2) "diagram.png" =
      fsGet [("diagram.png", "old")] "diagram.png" ∧
    fsGet ((render gEmpty BackendOutcome.missingBinary
        [("diagram.png", "old")] "diagram.png" "diagram.png.tmp").2) "diagram.png.tmp" =
      none :=
  (render_failure_leaves_fs_unchanged gEmpty BackendOutcome.missingBinary
    [("diagram.png", "old")] "diagram.png" "diagram.png.tmp"
    (fun img h => nomatch h) (by decide) (by decide)).2

theorem buildResult_strip_eq_TB (d : Direction) :
    (buildResult d).map stripDirection = (buildResult Direction.TB).map stripDirection := by
  cases d <;> rfl

/-- Claim C7: for every graph-building program and any two layout
directions, running the program under `open_graph(title, d1)` and under
`open_graph(title, d2)` assembles identical Graph models — same nodes,
same clusters, same edge list; the direction influences only the layout
hint, never the model.  In particular this holds for the script. -/
theorem direction_does_not_affect_model :
    (∀ (title : String) (prog : List Instr) (d1 d2 : Direction),
        (buildUnder title d1 prog).map stripDirection =
        (buildUnder title d2 prog).map stripDirection) ∧
    (∀ d1 d2 : Direction,
        (buildResult d1).map stripDirection = (buildResult d2).map stripDirection) := by
  constructor
  · intro title prog d1 d2
    rw [buildUnder_strip title prog d1, buildUnder_strip title prog d2]
  · intro d1 d2
    rw [buildResult_strip_eq_TB d1, buildResult_strip_eq_TB d2]

/-- Claim C8: calling create_node while no scope (neither a Graph nor a
Cluster) is open is rejected with ScopeError, and no node is created. -/
theorem create_node_outside_scope_rejected :
    ∀ label kind : String,
      create_node label kind none = Except.error BuildError.ScopeError :=
  fun _ _ => rfl

/-- Claim C9: in the graph assembled by this script the containment forest
has depth exactly two — the root Graph owns exactly 8 clusters, all rooted
directly at the Graph, and every one of the 22 nodes is owned by one of
those clusters, none by the root. -/
theorem script_containment_depth_two :
    (buildResult Direction.TB).map depthTwoForest = Except.ok true := by decide

/-- Claim C10: every one of the 39 edge records assembled by this script
joins two distinct leaf Nodes — no cluster endpoints, no self-loops,
forward-only, and no edge labels. -/
theorem script_edges_leaf_to_leaf :
    (buildResult Direction.TB).map edgesLeafOnly = Except.ok true := by decide

end Arch
